import Mathlib

/-!
Shallow embedding of `src/server.py` of the `mcp-epsilla` repository:
the startup configuration check, the `rate_limit` decorator, the
`list_tools` catalog and the `call_tool` dispatcher.

Modelling conventions:
* Wall-clock time (`datetime.now()`) is a rational number passed in
  explicitly; `asyncio.sleep d` advances the clock by exactly `d`.
* The remote vector-database client (`pyepsilla`) is an external
  collaborator; it is modelled by a record of outcomes (`Remote`), where
  the opaque payloads it returns are represented by their JSON
  serializations (plain strings).  Every remote invocation performed by
  the dispatcher is recorded in a log so that "the remote service is
  never called" is expressible.
* Python exceptions are values `ExcClass × String` (class and message);
  an `except` clause chain is an ordered list of (matcher, converter)
  pairs, searched front to back, exactly as Python does.
-/

namespace McpEpsilla

/-! ## Startup configuration (server.py lines 27-38) -/

/-- `os.getenv(key, default)`: the environment is a partial map from
variable names to strings; a missing variable yields the default. -/
def getenv (env : String → Option String) (key default : String) : String :=
  (env key).getD default

/-- The module-level configuration check of `server.py` (lines 27-38):
each identifier is read with a non-empty placeholder default, and a
`ValueError` is raised when the resulting string is falsy (empty). -/
def startupCheck (env : String → Option String) : Except String Unit :=
  let projectId := getenv env "EPSILLA_PROJECT_ID" "Your-Epsilla-Project-ID"
  let apiKey := getenv env "EPSILLA_API_KEY" "Your-Epsilla-API-Key"
  let dbId := getenv env "EPSILLA_DB_ID" "Your-Epsilla-DB-ID"
  if projectId = "" then
    .error "EPSILLA_PROJECT_ID environment variable must be set"
  else if apiKey = "" then
    .error "EPSILLA_API_KEY environment variable must be set"
  else if dbId = "" then
    .error "EPSILLA_DB_ID environment variable must be set"
  else
    .ok ()

/-! ## The rate limiter (server.py lines 64-94, `rate_limit`) -/

/-- The closure state of the `rate_limit` decorator: `last_reset` and
`calls_made` (server.py lines 68-69). -/
structure RateState where
  lastReset : ℚ
  callsMade : ℕ
deriving DecidableEq, Repr

/-- Observations of one pass through the `rate_limit` wrapper:
the elapsed time measured at entry, whether `asyncio.sleep` ran and for
how long, and the counter value after the budget-check block (step 3),
i.e. just before the final `calls_made += 1`. -/
structure StepObs where
  elapsed : ℚ
  slept : Bool
  sleepDur : ℚ
  afterCheck : ℕ
deriving DecidableEq, Repr

/-- One execution of the wrapper body of `rate_limit calls period`
(server.py lines 72-90) at wall-clock time `now`.  Returns the
observations and the closure state at the moment the wrapped function is
invoked (so `callsMade` already includes the final increment).

Line by line: if `now - last_reset > period` the counter is zeroed and
the window restarts at `now`; then, if `calls_made >= calls`, the wait
`period - (now - last_reset)` is computed and, only when it is positive,
the caller sleeps for it, after which `last_reset` is set to the
post-sleep clock `now + wait` and the counter is zeroed; finally the
counter is incremented. -/
def rateStep (calls : ℕ) (period : ℚ) (st : RateState) (now : ℚ) :
    StepObs × RateState :=
  let elapsed := now - st.lastReset
  let st1 : RateState := if elapsed > period then ⟨now, 0⟩ else st
  if st1.callsMade ≥ calls then
    let wait := period - (now - st1.lastReset)
    if wait > 0 then
      (⟨elapsed, true, wait, 0⟩, ⟨now + wait, 1⟩)
    else
      (⟨elapsed, false, 0, st1.callsMade⟩, ⟨st1.lastReset, st1.callsMade + 1⟩)
  else
    (⟨elapsed, false, 0, st1.callsMade⟩, ⟨st1.lastReset, st1.callsMade + 1⟩)

/-- Back-to-back invocations through a fresh `rate_limit calls period`
wrapper starting at time `t0`: each call is issued the instant the
previous one reaches the wrapped operation (zero processing time), so
the clock advances only by the limiter's sleeps.  `simBB k` returns the
clock at which the `k`-th wrapped operation begins and the closure state
after `k` calls. -/
def simBB (calls : ℕ) (period t0 : ℚ) : ℕ → ℚ × RateState
  | 0 => (t0, ⟨t0, 0⟩)
  | k + 1 =>
    let prev := simBB calls period t0 k
    let step := rateStep calls period prev.2 prev.1
    (prev.1 + step.1.sleepDur, step.2)

/-! ## The tool dispatcher (server.py lines 111-171) -/

/-- A Python value as it can arrive in the `arguments: Any` parameter of
`call_tool`: a string, an integer, `None`, or a dict. -/
inductive PyVal where
  | pyStr : String → PyVal
  | pyInt : ℤ → PyVal
  | pyNone : PyVal
  | pyDict : List (String × PyVal) → PyVal

/-- `isinstance(arguments, dict)`. -/
def PyVal.isDict : PyVal → Bool
  | .pyDict _ => true
  | _ => false

/-- Python dict lookup `arguments["name"]`, with `"name" in arguments`
being the `isSome` of this. -/
def PyVal.getKey : PyVal → String → Option PyVal
  | .pyDict fields, k => fields.lookup k
  | _, _ => none

/-- The class of a raised Python exception, to the granularity the
dispatcher's `except` clauses can observe: every exception raised in the
body of `call_tool` is an instance of `Exception` (a `ValueError` from
validation, or whatever the remote client raises). -/
inductive ExcClass where
  | valueError : ExcClass
  | remoteError : ExcClass
deriving DecidableEq, Repr

/-- A Python exception value: its class and its `str(e)` message. -/
abbrev PyExc := ExcClass × String

/-- `except Exception` matches every exception class in scope here. -/
def catchesException : ExcClass → Bool := fun _ => true

/-- The ordered `except` clause chain of `call_tool` (server.py lines
156-171): two clauses, both catching `Exception`; the first converts the
exception to the message `"Epsilla API error: " + str(e)`, the second to
`"Error executing " + name + ": " + str(e)`. -/
def excClauses (name : String) : List ((ExcClass → Bool) × (String → String)) :=
  [(catchesException, fun e => "Epsilla API error: " ++ e),
   (catchesException, fun e => "Error executing " ++ name ++ ": " ++ e)]

/-- Python exception dispatch: the first clause whose matcher accepts the
raised class converts the message; if none matches, the exception
propagates (`none`). -/
def firstClause (clauses : List ((ExcClass → Bool) × (String → String)))
    (c : ExcClass) (msg : String) : Option String :=
  match clauses with
  | [] => none
  | h :: rest => if h.1 c then some (h.2 msg) else firstClause rest c msg

/-- The one content-item shape the dispatcher returns:
`TextContent(type="text", text=...)`. -/
structure TextContent where
  type : String
  text : String
deriving DecidableEq, Repr

/-- Outcomes of the external `db_client` (pyepsilla).  Payloads the
remote service returns are opaque to the dispatcher and are represented
here by their JSON serializations: `list_tables` yields the
serialization of the tables value, `create_table` yields the
serializations of the `(status, info)` pair the code indexes as
`resp[1]`.  A failing call is an exception value. -/
structure Remote where
  list_tables : Except PyExc String
  create_table : PyVal → Except PyExc (String × String)

/-- A record of one invocation of the remote service, for expressing
"the remote service is never called". -/
inductive RemoteOp where
  | listTablesCall : RemoteOp
  | createTableCall : PyVal → RemoteOp

/-- `json.dumps(result, indent=2, default=str)` applied to the
single-key dict `result`: the payload standing for the value under the
key is spliced in already serialized. -/
def successText (key payload : String) : String :=
  "\x7b\n  \x22" ++ key ++ "\x22: " ++ payload ++ "\n\x7d"

/-- The `try` body of `call_tool` (server.py lines 138-154): route on the
tool name, validate `create_table` arguments, call the remote service,
build the serialized success text — or raise.  Also returns the log of
remote invocations made. -/
def call_tool_body (r : Remote) (name : String) (arguments : PyVal) :
    Except PyExc String × List RemoteOp :=
  if name = "list_tables" then
    match r.list_tables with
    | .ok tables => (.ok (successText "tables" tables), [.listTablesCall])
    | .error e => (.error e, [.listTablesCall])
  else if name = "create_table" then
    if arguments.isDict = false then
      (.error (.valueError, "Missing required parameter: \x27name\x27"), [])
    else
      match arguments.getKey "name" with
      | none => (.error (.valueError, "Missing required parameter: \x27name\x27"), [])
      | some v =>
        match r.create_table v with
        | .ok resp => (.ok (successText "info" resp.2), [.createTableCall v])
        | .error e => (.error e, [.createTableCall v])
  else
    (.error (.valueError, "Unknown tool: " ++ name), [])

/-- The full `call_tool` dispatcher (server.py lines 134-171): run the
`try` body; on success wrap the serialized result in one
`TextContent(type="text", ...)`; on an exception, hand it to the
`except` clause chain and wrap the converted message the same way.  If
no clause matched, the exception would propagate, producing no content
(empty list) — the theorems below show this never happens. -/
def call_tool (r : Remote) (name : String) (arguments : PyVal) :
    List TextContent × List RemoteOp :=
  match call_tool_body r name arguments with
  | (.ok t, log) => ([⟨"text", t⟩], log)
  | (.error (c, msg), log) =>
    match firstClause (excClauses name) c msg with
    | some t => ([⟨"text", t⟩], log)
    | none => ([], log)

/-! ## The tool catalog (server.py lines 111-131, `list_tools`) -/

/-- One property of a tool's JSON-schema input description. -/
structure SchemaProp where
  propName : String
  propType : String
  propDescription : String
deriving DecidableEq, Repr

/-- The `inputSchema` object of a tool: an object schema with named
properties and a list of required property names. -/
structure InputSchema where
  properties : List SchemaProp
  required : List String
deriving DecidableEq, Repr

/-- An entry of the tool catalog. -/
structure Tool where
  name : String
  description : String
  inputSchema : InputSchema
deriving DecidableEq, Repr

/-- The static catalog returned by `list_tools` (server.py lines
111-131).  It is a constant: no rate limiting is applied (the
`rate_limit` decorator is absent) and no remote call occurs. -/
def list_tools : List Tool :=
  [⟨"list_dbs", "List all dbs you have access to", ⟨[], []⟩⟩,
   ⟨"create_table", "Create a new table in Epsilla for storing documents",
     ⟨[⟨"name", "string", "Name of the table"⟩], ["name"]⟩⟩]

/-- A remote service stub whose calls succeed: `list_tables` returns the
serialized empty list, `create_table` returns status and info payloads. -/
def remoteStub : Remote := ⟨.ok "[]", fun _ => .ok ("200", "\x22done\x22")⟩

/-- A remote service stub whose calls raise. -/
def remoteFailing : Remote :=
  ⟨.error (.remoteError, "connection refused"), fun _ => .error (.remoteError, "boom")⟩


/-! ## Theorems for the claims -/

/-! ## Helper lemmas -/

/-- In the clause chain of `call_tool`, the first clause catches every
exception, so exception dispatch always selects it. -/
lemma firstClause_excClauses (name : String) (c : ExcClass) (msg : String) :
    firstClause (excClauses name) c msg = some ("Epsilla API error: " ++ msg) := by
  simp [firstClause, excClauses, catchesException]

/-- Case analysis on the dispatcher: its result is the success text of
the body wrapped in one text item, or the message of the raised
exception converted by the first clause, again in one text item. -/
lemma call_tool_cases (r : Remote) (name : String) (arguments : PyVal) :
    (∃ t log, call_tool_body r name arguments = (.ok t, log) ∧
       call_tool r name arguments = ([⟨"text", t⟩], log)) ∨
    (∃ c msg log, call_tool_body r name arguments = (.error (c, msg), log) ∧
       call_tool r name arguments = ([⟨"text", "Epsilla API error: " ++ msg⟩], log)) := by
  rcases hbody : call_tool_body r name arguments with ⟨res, log⟩
  cases res with
  | ok t =>
    exact .inl ⟨t, log, rfl, by simp [call_tool, hbody]⟩
  | error e =>
    rcases e with ⟨c, msg⟩
    exact .inr ⟨c, msg, log, rfl, by simp [call_tool, hbody, firstClause_excClauses]⟩

/-- Every success text the `try` body of `call_tool` can produce is the
serialization of a single-key object. -/
lemma call_tool_body_ok_shape (r : Remote) (name : String) (arguments : PyVal)
    (t : String) (log : List RemoteOp)
    (h : call_tool_body r name arguments = (.ok t, log)) :
    ∃ k p, t = successText k p := by
  unfold call_tool_body at h
  split at h
  · cases hl : r.list_tables <;> rw [hl] at h <;>
      simp only [Prod.mk.injEq, Except.ok.injEq, reduceCtorEq, false_and] at h
    exact ⟨_, _, h.1.symm⟩
  · split at h
    · split at h
      · simp only [Prod.mk.injEq, reduceCtorEq, false_and] at h
      · split at h
        · simp only [Prod.mk.injEq, reduceCtorEq, false_and] at h
        · cases hc : r.create_table _ <;> rw [hc] at h <;>
            simp only [Prod.mk.injEq, Except.ok.injEq, reduceCtorEq, false_and] at h
          exact ⟨_, _, h.1.symm⟩
    · simp only [Prod.mk.injEq, reduceCtorEq, false_and] at h

/-- A message produced by the first clause never coincides with one the
second clause would produce: the texts differ at their second character. -/
lemma apiError_ne_errorExecuting (m s : String) :
    "Epsilla API error: " ++ m ≠ "Error executing" ++ s := by
  intro h
  have hd := congrArg String.data h
  simp [String.data_append] at hd

/-- A success serialization starts with an opening brace, so it never
coincides with a message of the second clause. -/
lemma successText_ne_errorExecuting (k p s : String) :
    successText k p ≠ "Error executing" ++ s := by
  intro h
  have hd := congrArg String.data h
  simp [successText, String.data_append] at hd

/-- Claim C1: for every tool name and every argument value, `call_tool`
returns a sequence containing exactly one text content item — the
JSON-encoded success object or a plain-text error message — and every
exception raised inside its body is converted rather than propagated
(the no-clause-matched fallthrough of the embedding is never taken). -/
theorem call_tool_single_text_item (r : Remote) (name : String) (arguments : PyVal) :
    ∃ t, (call_tool r name arguments).1 = [⟨"text", t⟩] ∧
      ((∃ k p, t = successText k p) ∨ ∃ m, t = "Epsilla API error: " ++ m) := by
  rcases call_tool_cases r name arguments with ⟨t, log, hbody, hct⟩ | ⟨c, m, log, hbody, hct⟩
  · exact ⟨t, by rw [hct], .inl (call_tool_body_ok_shape r name arguments t log hbody)⟩
  · exact ⟨"Epsilla API error: " ++ m, by rw [hct], .inr ⟨m, rfl⟩⟩

/-- Claim C10: the second `except` clause of `call_tool` is dead: every
result is produced by the success path or by the first clause, and no
returned item ever carries the text the second clause would produce. -/
theorem call_tool_second_clause_unreachable (r : Remote) (name : String) (arguments : PyVal) :
    (∃ t, (call_tool r name arguments).1 = [⟨"text", t⟩] ∧
       ((call_tool_body r name arguments).1 = .ok t ∨
        ∃ c m, (call_tool_body r name arguments).1 = .error (c, m) ∧
          t = "Epsilla API error: " ++ m)) ∧
    ∀ tc ∈ (call_tool r name arguments).1, ∀ s, tc.text ≠ "Error executing" ++ s := by
  rcases call_tool_cases r name arguments with ⟨t, log, hbody, hct⟩ | ⟨c, m, log, hbody, hct⟩
  · constructor
    · exact ⟨t, by rw [hct], .inl (by rw [hbody])⟩
    · intro tc htc s
      rw [hct] at htc
      simp only [List.mem_singleton] at htc
      subst htc
      obtain ⟨k, p, hkp⟩ := call_tool_body_ok_shape r name arguments t log hbody
      simpa [hkp] using successText_ne_errorExecuting k p s
  · constructor
    · exact ⟨"Epsilla API error: " ++ m, by rw [hct], .inr ⟨c, m, by rw [hbody], rfl⟩⟩
    · intro tc htc s
      rw [hct] at htc
      simp only [List.mem_singleton] at htc
      subst htc
      exact apiError_ne_errorExecuting m s

/-- Claim C2, counterexample: with all three identifiers absent from the
environment, the startup check succeeds — the non-empty placeholder
defaults are substituted and no fatal configuration error is raised. -/
theorem startupCheck_absent_env_ok :
    (fun _ => (none : Option String)) "EPSILLA_PROJECT_ID" = none ∧
    (fun _ => (none : Option String)) "EPSILLA_API_KEY" = none ∧
    (fun _ => (none : Option String)) "EPSILLA_DB_ID" = none ∧
    startupCheck (fun _ => none) = .ok () :=
  ⟨rfl, rfl, rfl, rfl⟩

/-- Claim C2 as amended: the startup check raises a fatal configuration
error exactly when one of the three identifiers is present in the
environment but bound to the empty string; an absent identifier is
replaced by its non-empty placeholder default and startup proceeds. -/
theorem startupCheck_error_iff (env : String → Option String) :
    (∃ e, startupCheck env = .error e) ↔
      (env "EPSILLA_PROJECT_ID" = some "" ∨ env "EPSILLA_API_KEY" = some "" ∨
       env "EPSILLA_DB_ID" = some "") := by
  unfold startupCheck getenv
  rcases hp : env "EPSILLA_PROJECT_ID" with _ | p <;>
    rcases ha : env "EPSILLA_API_KEY" with _ | a <;>
      rcases hd : env "EPSILLA_DB_ID" with _ | d <;>
        simp [hp, ha, hd] <;> split_ifs <;> simp_all

/-- Claim C3, counterexample: with budget `calls = 1` and `period = 1`,
a first guarded call at time 0 and a second at time 1 (elapsed exactly
one period): neither call sleeps, yet after the second call the counter
is 2, exceeding the budget — the second wrapped call proceeded with no
suspension ever triggered. -/
theorem rateStep_exceeds_budget_without_sleep :
    rateStep 1 1 ⟨0, 0⟩ 0 = (⟨0, false, 0, 0⟩, ⟨0, 1⟩) ∧
    rateStep 1 1 ⟨0, 1⟩ 1 = (⟨1, false, 0, 1⟩, ⟨0, 2⟩) ∧
    1 < (rateStep 1 1 ⟨0, 1⟩ 1).2.callsMade := by
  refine ⟨by norm_num [rateStep], by norm_num [rateStep], by norm_num [rateStep]⟩

/-- Claim C3 as amended: at every guarded call whose elapsed time since
the window start is not exactly the period, the budget invariant holds:
a counter within budget stays within budget across the call, and a
counter at or past the budget comes out of the call reset to 1, with an
actual sleep whenever the window had not yet naturally expired. A call
arriving at exactly one period of elapsed time is the exception: there
the counter passes the budget with no suspension. -/
theorem rateStep_budget_invariant (calls : ℕ) (period now : ℚ) (st : RateState)
    (hcalls : 1 ≤ calls) (hne : now - st.lastReset ≠ period) :
    (st.callsMade ≤ calls → (rateStep calls period st now).2.callsMade ≤ calls) ∧
    (calls ≤ st.callsMade →
      (rateStep calls period st now).2.callsMade = 1 ∧
      (now - st.lastReset < period → (rateStep calls period st now).1.slept = true)) := by
  simp only [rateStep]
  split_ifs with h1 h2 h3 h4 h5 <;> dsimp only
  · exact ⟨fun _ => by omega, fun _ => ⟨by trivial, fun _ => by trivial⟩⟩
  · exact ⟨fun _ => by omega, fun _ => ⟨by trivial, fun hlt => by linarith⟩⟩
  · exact ⟨fun _ => by omega, fun _ => ⟨by trivial, fun hlt => by linarith⟩⟩
  · exact ⟨fun _ => by omega, fun _ => ⟨by trivial, fun _ => by trivial⟩⟩
  · exfalso
    have hlt := lt_of_le_of_ne (not_lt.mp h1) hne
    have := not_lt.mp h5
    linarith
  · exact ⟨fun _ => by omega, fun hf => absurd hf h4⟩

/-- Witness for the amended claim C3 at `calls = 1`, `period = 1`, a
fresh window at time 0 and a call at time 0. -/
theorem rateStep_budget_invariant_witness :
    (rateStep 1 1 ⟨0, 0⟩ 0).2.callsMade ≤ 1 :=
  (rateStep_budget_invariant 1 1 0 ⟨0, 0⟩ (by norm_num) (by norm_num)).1 (by norm_num)

/-- Claim C4, counterexample: with `calls = 1`, `period = 1`, window
start 0 and counter 1, a call at time 1 makes the budget check fire with
computed wait `1 - 1 = 0`; the sleep is skipped and — contrary to the
claim — neither the counter nor the window start is reset: the counter
after the check block is still 1 (not 0), the window start stays 0 (not
the current time), and the wrapped call runs with the counter at 2. -/
theorem rateStep_no_reset_on_nonpositive_wait :
    1 ≤ (⟨0, 1⟩ : RateState).callsMade ∧
    rateStep 1 1 ⟨0, 1⟩ 1 = (⟨1, false, 0, 1⟩, ⟨0, 2⟩) ∧
    (rateStep 1 1 ⟨0, 1⟩ 1).1.afterCheck ≠ 0 ∧
    (rateStep 1 1 ⟨0, 1⟩ 1).2.lastReset ≠ 1 := by
  refine ⟨by norm_num, by norm_num [rateStep], by norm_num [rateStep], by norm_num [rateStep]⟩

/-- Claim C4 as amended: when the budget check fires inside the current
window, the counter and the window start are reset exactly when the
computed wait `period - elapsed` is positive (the caller then slept for
it and the window restarts at the post-sleep clock); when the wait is
non-positive the sleep, the counter reset and the window reset are all
skipped, and the counter increments past the budget over an unchanged
window. -/
theorem rateStep_reset_iff_positive_wait (calls : ℕ) (period now : ℚ) (st : RateState)
    (hfire : calls ≤ st.callsMade) (hin : ¬ now - st.lastReset > period) :
    (0 < period - (now - st.lastReset) →
       (rateStep calls period st now).1.slept = true ∧
       (rateStep calls period st now).1.afterCheck = 0 ∧
       (rateStep calls period st now).2 = ⟨now + (period - (now - st.lastReset)), 1⟩) ∧
    (¬ 0 < period - (now - st.lastReset) →
       (rateStep calls period st now).1.slept = false ∧
       (rateStep calls period st now).1.afterCheck = st.callsMade ∧
       (rateStep calls period st now).2 = ⟨st.lastReset, st.callsMade + 1⟩) := by
  simp only [rateStep]
  split_ifs with h1 <;> dsimp only
  · exact ⟨fun _ => ⟨rfl, rfl, rfl⟩, fun hnp => absurd h1 hnp⟩
  · exact ⟨fun hp => absurd hp h1, fun _ => ⟨rfl, rfl, rfl⟩⟩

/-- Witness for the amended claim C4 at the skipped-wait boundary input
`calls = 1`, `period = 1`, window start 0, counter 1, call at time 1. -/
theorem rateStep_reset_iff_positive_wait_witness :
    (rateStep 1 1 ⟨0, 1⟩ 1).1.slept = false ∧
    (rateStep 1 1 ⟨0, 1⟩ 1).1.afterCheck = (⟨0, 1⟩ : RateState).callsMade ∧
    (rateStep 1 1 ⟨0, 1⟩ 1).2 = ⟨(⟨0, 1⟩ : RateState).lastReset, (⟨0, 1⟩ : RateState).callsMade + 1⟩ :=
  (rateStep_reset_iff_positive_wait 1 1 1 ⟨0, 1⟩ (by norm_num) (by norm_num)).2 (by norm_num)

/-- Claim C5, counterexample: an argument bag whose `name` entry is
present but is the empty string (not a non-empty string) passes the
dispatcher's validation: the remote table-creation operation is invoked
with the empty name and a success envelope is returned — no error
envelope naming `name` is produced. -/
theorem create_table_empty_name_reaches_remote :
    call_tool remoteStub "create_table" (.pyDict [("name", .pyStr "")]) =
      ([⟨"text", successText "info" "\x22done\x22"⟩], [.createTableCall (.pyStr "")]) ∧
    (call_tool remoteStub "create_table" (.pyDict [("name", .pyStr "")])).2 ≠ [] ∧
    ∀ tc ∈ (call_tool remoteStub "create_table" (.pyDict [("name", .pyStr "")])).1,
      tc.text ≠ "Epsilla API error: Missing required parameter: \x27name\x27" := by
  have heq : call_tool remoteStub "create_table" (.pyDict [("name", .pyStr "")]) =
      ([⟨"text", successText "info" "\x22done\x22"⟩], [.createTableCall (.pyStr "")]) := rfl
  refine ⟨heq, ?_, ?_⟩
  · rw [heq]
    simp
  · rw [heq]
    intro tc htc
    simp only [List.mem_singleton] at htc
    subst htc
    decide

/-- Claim C5 as amended: when the argument bag is not a mapping or has
no `name` key at all, the dispatcher returns the error envelope naming
the parameter `name` and the remote service is never invoked; a `name`
value that is present but empty (or of any non-string shape) is not
validated and is forwarded to the remote table-creation operation. -/
theorem create_table_missing_name_validated (r : Remote) (arguments : PyVal)
    (h : arguments.isDict = false ∨ arguments.getKey "name" = none) :
    call_tool r "create_table" arguments =
      ([⟨"text", "Epsilla API error: Missing required parameter: \x27name\x27"⟩], []) := by
  rcases h with h | h
  · simp [call_tool, call_tool_body, h, firstClause, excClauses, catchesException]
  · cases hd : arguments.isDict
    · simp [call_tool, call_tool_body, hd, firstClause, excClauses, catchesException]
    · simp [call_tool, call_tool_body, hd, h, firstClause, excClauses, catchesException]

/-- Witness for the amended claim C5: calling `create_table` with the
empty argument mapping yields the validation envelope and an empty
remote-call log. -/
theorem create_table_missing_name_validated_witness :
    call_tool remoteStub "create_table" (.pyDict []) =
      ([⟨"text", "Epsilla API error: Missing required parameter: \x27name\x27"⟩], []) :=
  create_table_missing_name_validated remoteStub (.pyDict []) (.inr rfl)

/-- Claim C6: the catalog of `list_tools` does not match the set of
names `call_tool` accepts: the catalog advertises `list_dbs`, which the
dispatcher rejects as an unknown tool without any remote call, while the
dispatcher-supported `list_tables` is absent from the catalog. -/
theorem list_dbs_advertised_but_unknown :
    list_tools.map Tool.name = ["list_dbs", "create_table"] ∧
    "list_tables" ∉ list_tools.map Tool.name ∧
    (∀ r arguments, call_tool r "list_dbs" arguments =
       ([⟨"text", "Epsilla API error: Unknown tool: list_dbs"⟩], [])) ∧
    (∀ r arguments, (call_tool r "list_tables" arguments).2 = [.listTablesCall]) := by
  refine ⟨rfl, by decide, fun r a => rfl, fun r a => ?_⟩
  cases hl : r.list_tables <;>
    simp [call_tool, call_tool_body, hl, firstClause_excClauses]

/-- Claim C8: for every tool name other than the two the dispatcher
routes, `call_tool` returns one error envelope whose text contains both
the string Unknown tool and the offending name, and the remote-call log
is empty. -/
theorem unknown_tool_error (r : Remote) (name : String) (arguments : PyVal)
    (h1 : name ≠ "list_tables") (h2 : name ≠ "create_table") :
    call_tool r name arguments =
      ([⟨"text", "Epsilla API error: Unknown tool: " ++ name⟩], []) ∧
    (∃ pre suf, "Epsilla API error: Unknown tool: " ++ name = pre ++ "Unknown tool" ++ suf) ∧
    (∃ pre suf, "Epsilla API error: Unknown tool: " ++ name = pre ++ name ++ suf) := by
  refine ⟨?_, ⟨"Epsilla API error: ", ": " ++ name, ?_⟩,
    ⟨"Epsilla API error: Unknown tool: ", "", ?_⟩⟩
  · simp [call_tool, call_tool_body, h1, h2, firstClause, excClauses, catchesException]
    rw [← String.append_assoc]
    rfl
  · simp only [← String.append_assoc]
    rfl
  · rw [String.append_empty]

/-- Witness for claim C8 at the unadvertised name `drop_table`. -/
theorem unknown_tool_error_witness :
    call_tool remoteStub "drop_table" .pyNone =
      ([⟨"text", "Epsilla API error: Unknown tool: " ++ "drop_table"⟩], []) :=
  (unknown_tool_error remoteStub "drop_table" .pyNone (by decide) (by decide)).1

/-- Claim C9, counterexample: a remote-service failure and a validation
failure produce envelope texts that begin with the same marker
`Epsilla API error: ` — the dispatcher attaches one common marker to
every caught failure, so no attached marker distinguishes the two
classes. -/
theorem remote_and_validation_share_marker :
    (∃ m, call_tool remoteFailing "list_tables" .pyNone =
        ([⟨"text", "Epsilla API error: " ++ m⟩], [.listTablesCall])) ∧
    (∃ m, call_tool remoteStub "create_table" (.pyDict []) =
        ([⟨"text", "Epsilla API error: " ++ m⟩], [])) :=
  ⟨⟨"connection refused", rfl⟩, ⟨"Missing required parameter: \x27name\x27", rfl⟩⟩

/-- Claim C9 as amended: a failing remote call is surfaced as an error
envelope whose text is the marker `Epsilla API error: ` followed by the
remote failure message, but a validation failure carries the very same
marker: the marker identifies every dispatcher-caught error and does not
distinguish remote failures from validation failures — only the message
body after it differs. -/
theorem error_envelopes_share_marker (r : Remote) (arguments : PyVal) (m : String)
    (h : r.list_tables = .error (.remoteError, m)) :
    (call_tool r "list_tables" arguments).1 = [⟨"text", "Epsilla API error: " ++ m⟩] ∧
    (call_tool r "create_table" (.pyDict [])).1 =
      [⟨"text", "Epsilla API error: " ++ "Missing required parameter: \x27name\x27"⟩] := by
  constructor
  · simp [call_tool, call_tool_body, h, firstClause_excClauses]
  · rfl

/-- Witness for the amended claim C9 at a concrete failing remote. -/
theorem error_envelopes_share_marker_witness :
    (call_tool remoteFailing "list_tables" .pyNone).1 =
      [⟨"text", "Epsilla API error: " ++ "connection refused"⟩] ∧
    (call_tool remoteFailing "create_table" (.pyDict [])).1 =
      [⟨"text", "Epsilla API error: " ++ "Missing required parameter: \x27name\x27"⟩] :=
  error_envelopes_share_marker remoteFailing .pyNone "connection refused" rfl

/-- Claim C7: through a fresh `rate_limit N T` wrapper with positive
period, the first N back-to-back invocations begin immediately at `t0`
with no limiter-added delay (the counter simply climbs to N), and the
(N+1)-th wrapped operation does not begin until the clock reads
`t0 + T`, i.e. until a full period has elapsed since the first call. -/
theorem simBB_n_plus_one_waits (N : ℕ) (T t0 : ℚ) (hT : 0 < T) :
    (∀ k, k ≤ N → simBB N T t0 k = (t0, ⟨t0, k⟩)) ∧
    (simBB N T t0 (N + 1)).1 = t0 + T := by
  have key : ∀ k, k ≤ N → simBB N T t0 k = (t0, ⟨t0, k⟩) := by
    intro k
    induction k with
    | zero => intro _; rfl
    | succ k ih =>
      intro hk
      have hlt : k < N := hk
      rw [simBB, ih (Nat.le_of_succ_le hk)]
      simp only [rateStep]
      split_ifs <;> dsimp only at * <;> simp only [sub_self] at * <;>
        first
          | (exfalso; linarith)
          | (exfalso; omega)
          | simp
  refine ⟨key, ?_⟩
  rw [simBB, key N le_rfl]
  simp only [rateStep]
  split_ifs <;> dsimp only at * <;> simp only [sub_self] at * <;>
    first
      | (exfalso; linarith)
      | (exfalso; omega)
      | simp

/-- Witness for claim C7 at `N = 2`, `T = 1`, `t0 = 0`: both of the
first two calls begin at time 0 and the third begins at time 1. -/
theorem simBB_n_plus_one_waits_witness :
    simBB 2 1 0 2 = (0, ⟨0, 2⟩) ∧ (simBB 2 1 0 3).1 = 0 + 1 :=
  ⟨(simBB_n_plus_one_waits 2 1 0 (by norm_num)).1 2 (by norm_num),
   (simBB_n_plus_one_waits 2 1 0 (by norm_num)).2⟩

end McpEpsilla
